import Mathlib

/-!
Shallow embedding of the RTL_CommandBus command/response protocol
(CommandProtocol.h, CommandListener.h / CommandListener.cpp, RTL_I2C.h).

Bytes are modelled as `Nat`; wherever the C++ code stores an argument into a
`byte` field the model reduces it `% 256`, mirroring the implicit narrowing
conversion. Frames travel as `List Nat` (the raw byte buffers that the structs
are overlaid on). The listener's two fixed 32-byte arrays are `List Nat`s of
length 32; `memcpy` with a count larger than the destination's length yields a
longer list, which models writing past the end of the fixed buffer.
-/

abbrev Byte := Nat

/-! ## Command codes (CommandProtocol.h) -/

def CMD_NONE : Byte := 0x00
def CMD_QUERY_ID : Byte := 0x01
def CMD_QUERY_RESPONSE : Byte := 0x02
def CMD_RESET_DEVICE : Byte := 0x03
def CMD_MASTER_ADDR : Byte := 0x04
def CMD_EXECUTE : Byte := 0x05
def CMD_ECHO : Byte := 0x06

def NOTIFY_CMD_INVALID : Byte := 0xFE

/-! ## Response codes (CommandProtocol.h) -/

def CMD_RESPONSE_OK : Byte := 0x00
def CMD_RESPONSE_DEFERRED : Byte := 0x01
def CMD_RESPONSE_NOTREADY : Byte := 0x02
def CMD_RESPONSE_BUSY : Byte := 0x03
def CMD_RESPONSE_ERROR : Byte := 0x04
def CMD_RESPONSE_UNKNOWN : Byte := 0x05

/-! ## Message structs (CommandProtocol.h)

Each struct is flattened (inherited fields first, in declaration order), since
the C++ types have no virtual members and are overlaid on raw buffers. All
fields are single bytes or fixed `char` arrays, so `sizeof` equals the field
byte count with no padding.
-/

structure CommandMessage where
  Length : Byte
  CommandCode : Byte
  deriving Repr, DecidableEq

def sizeofCommandMessage : Nat := 2

/-- `CommandMessage(commandCode)` : stores the code, then `Length = sizeof(*this)`. -/
def CommandMessage.make (commandCode : Byte) : CommandMessage :=
  { Length := sizeofCommandMessage, CommandCode := commandCode % 256 }

def encodeCommandMessage (m : CommandMessage) : List Byte :=
  [m.Length, m.CommandCode]

/-- Overlaying a `CommandMessage` on a raw buffer: read the first 2 bytes. -/
def decodeCommandMessage : List Byte → Option CommandMessage
  | l :: c :: _ => some { Length := l, CommandCode := c }
  | _ => none

/-- `strncpy(dst, src, n)` into a zeroed buffer: copies at most `n` characters
of `src`, stopping at the first NUL. The argument list models the characters of
the C string before its terminator (each narrowed to a byte). -/
def strncpyChars : Nat → List Byte → List Byte
  | 0, _ => []
  | _ + 1, [] => []
  | n + 1, c :: rest =>
      if c % 256 = 0 then [] else (c % 256) :: strncpyChars n rest

/-- `memset(buf, 0, cap)` followed by `strncpy(buf, src, cap - 1)`: the
characters copied, zero-padded to the array's capacity. -/
def cstrBuffer (cap : Nat) (src : List Byte) : List Byte :=
  let chars := strncpyChars (cap - 1) src
  chars ++ List.replicate (cap - chars.length) 0

structure CommandExecute where
  Length : Byte
  CommandCode : Byte
  RequestorAddress : Byte
  CommandLine : List Byte
  deriving Repr, DecidableEq

def sizeofCommandExecute : Nat := 30

/-- `CommandExecute(requestorAddr, commandLine)` : base ctor with CMD_EXECUTE,
then `Length = sizeof(*this)`, `memset` + `strncpy` of the command line. -/
def CommandExecute.make (requestorAddr : Byte) (commandLine : List Byte) :
    CommandExecute :=
  { Length := sizeofCommandExecute, CommandCode := CMD_EXECUTE,
    RequestorAddress := requestorAddr % 256,
    CommandLine := cstrBuffer 27 commandLine }

def encodeCommandExecute (m : CommandExecute) : List Byte :=
  m.Length :: m.CommandCode :: m.RequestorAddress :: m.CommandLine

def decodeCommandExecute (raw : List Byte) : Option CommandExecute :=
  match raw with
  | l :: c :: a :: rest =>
      if rest.length ≥ 27 then
        some { Length := l, CommandCode := c, RequestorAddress := a,
               CommandLine := rest.take 27 }
      else none
  | _ => none

structure CommandEcho where
  Length : Byte
  CommandCode : Byte
  EchoData : List Byte
  deriving Repr, DecidableEq

def sizeofCommandEcho : Nat := 29

/-- `CommandEcho(echoData)` : base ctor with CMD_ECHO, then
`Length = sizeof(*this)`, `memset` + `strncpy` of the echo data. -/
def CommandEcho.make (echoData : List Byte) : CommandEcho :=
  { Length := sizeofCommandEcho, CommandCode := CMD_ECHO,
    EchoData := cstrBuffer 27 echoData }

def encodeCommandEcho (m : CommandEcho) : List Byte :=
  m.Length :: m.CommandCode :: m.EchoData

def decodeCommandEcho (raw : List Byte) : Option CommandEcho :=
  match raw with
  | l :: c :: rest =>
      if rest.length ≥ 27 then
        some { Length := l, CommandCode := c, EchoData := rest.take 27 }
      else none
  | _ => none

structure CommandQueryResponseReady where
  Length : Byte
  CommandCode : Byte
  ResponseID : Byte
  OriginalCommand : Byte
  deriving Repr, DecidableEq

def sizeofCommandQueryResponseReady : Nat := 4

/-- `CommandQueryResponseReady(responseID)` : base ctor with
CMD_QUERY_RESPONSE, stores the ID, then `Length = sizeof(*this)`.
`OriginalCommand` is left default-initialized (zero in the model; the C++
leaves it uninitialized, to be set by the caller). -/
def CommandQueryResponseReady.make (responseID : Byte) :
    CommandQueryResponseReady :=
  { Length := sizeofCommandQueryResponseReady,
    CommandCode := CMD_QUERY_RESPONSE,
    ResponseID := responseID % 256, OriginalCommand := 0 }

def encodeCommandQueryResponseReady (m : CommandQueryResponseReady) :
    List Byte :=
  [m.Length, m.CommandCode, m.ResponseID, m.OriginalCommand]

def decodeCommandQueryResponseReady : List Byte → Option CommandQueryResponseReady
  | l :: c :: r :: o :: _ =>
      some { Length := l, CommandCode := c, ResponseID := r,
             OriginalCommand := o }
  | _ => none

structure CommandResponse where
  Length : Byte
  ResponseCode : Byte
  ResponseID : Byte
  deriving Repr, DecidableEq

def sizeofCommandResponse : Nat := 3

/-- `CommandResponse(responseCode, responseID)` : stores both codes, then
`Length = sizeof(*this)`. -/
def CommandResponse.make (responseCode : Byte) (responseID : Byte) :
    CommandResponse :=
  { Length := sizeofCommandResponse, ResponseCode := responseCode % 256,
    ResponseID := responseID % 256 }

def encodeCommandResponse (r : CommandResponse) : List Byte :=
  [r.Length, r.ResponseCode, r.ResponseID]

def decodeCommandResponse : List Byte → Option CommandResponse
  | l :: c :: i :: _ =>
      some { Length := l, ResponseCode := c, ResponseID := i }
  | _ => none

structure CommandResponseQueryID where
  Length : Byte
  ResponseCode : Byte
  ResponseID : Byte
  ID : Byte
  deriving Repr, DecidableEq

def sizeofCommandResponseQueryID : Nat := 4

/-- `CommandResponseQueryID(id)` : base default ctor gives
`(CMD_RESPONSE_OK, 0)`, stores the device ID, then `Length = sizeof(*this)`. -/
def CommandResponseQueryID.make (id : Byte) : CommandResponseQueryID :=
  { Length := sizeofCommandResponseQueryID, ResponseCode := CMD_RESPONSE_OK,
    ResponseID := 0, ID := id % 256 }

def encodeCommandResponseQueryID (r : CommandResponseQueryID) : List Byte :=
  [r.Length, r.ResponseCode, r.ResponseID, r.ID]

def decodeCommandResponseQueryID : List Byte → Option CommandResponseQueryID
  | l :: c :: i :: d :: _ =>
      some { Length := l, ResponseCode := c, ResponseID := i, ID := d }
  | _ => none

structure CommandResponseDeferred where
  Length : Byte
  ResponseCode : Byte
  ResponseID : Byte
  deriving Repr, DecidableEq

def sizeofCommandResponseDeferred : Nat := 3

/-- `CommandResponseDeferred(responseID)` : base ctor with
`(CMD_RESPONSE_DEFERRED, responseID)`, then `Length = sizeof(*this)`. -/
def CommandResponseDeferred.make (responseID : Byte) : CommandResponseDeferred :=
  { Length := sizeofCommandResponseDeferred,
    ResponseCode := CMD_RESPONSE_DEFERRED, ResponseID := responseID % 256 }

def encodeCommandResponseDeferred (r : CommandResponseDeferred) : List Byte :=
  [r.Length, r.ResponseCode, r.ResponseID]

def decodeCommandResponseDeferred : List Byte → Option CommandResponseDeferred
  | l :: c :: i :: _ =>
      some { Length := l, ResponseCode := c, ResponseID := i }
  | _ => none

/-! ## Command listener state (CommandListener.h)

`CommandBuffer` and `ResponseBuffer` are fixed `byte[32]` arrays; here they are
`List Byte`s whose length is 32 in any well-formed state. `memcpy` with a count
beyond 32 produces a longer list — the model's image of writing past the end of
the fixed array.
-/

def BUFFER_CAPACITY : Nat := 32

structure ListenerState where
  CommandBuffer : List Byte
  ResponseBuffer : List Byte
  CommandPending : Bool
  ResponsePending : Bool
  myDeviceID : Byte
  deriving Repr, DecidableEq

/-- `CommandListener(deviceID)` with the buffers' 32 cells in an arbitrary
initial state (the C++ leaves them uninitialized); `Begin()` is modelled
separately. -/
def mkListener (deviceID : Byte) (cmdBuf respBuf : List Byte) : ListenerState :=
  { CommandBuffer := cmdBuf, ResponseBuffer := respBuf,
    CommandPending := false, ResponsePending := false,
    myDeviceID := deviceID % 256 }

/-- `Begin()` : clears both pending flags (then calls the no-op `OnBegin`). -/
def ListenerBegin (s : ListenerState) : ListenerState :=
  { s with CommandPending := false, ResponsePending := false }

/-- `memcpy(dest, src, n)` where `dest` is a fixed buffer: the first `n` cells
receive `src`'s first `n` bytes, the rest of `dest` is untouched. When
`n > dest.length` the result is longer than the buffer — bytes land past its
end. (Only used at call sites where `src` holds at least `n` bytes.) -/
def memcpy (dest src : List Byte) (n : Nat) : List Byte :=
  src.take n ++ dest.drop n

/-- `PostResponse(pResponse)` (CommandListener.cpp): if the pointer is non-NULL,
`memcpy(ResponseBuffer, pResponse, pResponse->Length)` and set
`ResponsePending`, with interrupts masked around the pair. The raw frame's
first byte is its `Length` field; no check against the buffer's capacity is
made. -/
def PostResponse (s : ListenerState) (pResponse : Option (List Byte)) :
    ListenerState :=
  match pResponse with
  | none => s
  | some raw =>
      { s with ResponseBuffer := memcpy s.ResponseBuffer raw (raw.getD 0 0),
               ResponsePending := true }

/-- The `static auto responseNotReady = CommandResponse(CMD_RESPONSE_NOTREADY)`
local of `GetResponse`. -/
def responseNotReady : List Byte :=
  encodeCommandResponse (CommandResponse.make CMD_RESPONSE_NOTREADY 0)

/-- `GetResponse()` (CommandListener.cpp): if a response is pending, clear the
flag and return the response buffer; otherwise return the static NOT_READY
response. Returns the served bytes together with the successor state. -/
def GetResponse (s : ListenerState) : List Byte × ListenerState :=
  if s.ResponsePending then
    (s.ResponseBuffer, { s with ResponsePending := false })
  else
    (responseNotReady, s)

/-- `DefaultCommandHandler(pCommand)` (CommandListener.cpp): switch on
`pCommand->CommandCode` (the frame's second byte). `CMD_QUERY_ID` posts a
`CommandResponseQueryID(_myDeviceID)`; every other code falls through the
switch with no action. -/
def DefaultCommandHandler (s : ListenerState) (pCommand : List Byte) :
    ListenerState :=
  if pCommand.getD 1 0 = CMD_QUERY_ID then
    PostResponse s
      (some (encodeCommandResponseQueryID
        (CommandResponseQueryID.make s.myDeviceID)))
  else
    s

/-- The virtual `OnCommand` defaults to `DefaultCommandHandler`; subclasses may
override it. A handler receives the listener state and the command buffer. -/
abbrev Handler := ListenerState → List Byte → ListenerState

/-- `Poll()` (CommandListener.cpp): if a command is pending, call `OnCommand`
on the command buffer and clear the pending flag. The second component records
the frames dispatched to the handler during this call (the trailing
`EventSource::Poll()` is the external event framework). -/
def Poll (onCommand : Handler) (s : ListenerState) :
    ListenerState × List (List Byte) :=
  if s.CommandPending then
    let s' := onCommand s s.CommandBuffer
    ({ s' with CommandPending := false }, [s.CommandBuffer])
  else
    (s, [])

/-- `OnCommandReceived(pCommand)` (CommandListener.cpp, the receive path): if a
command is already pending, build `CommandResponse(CMD_RESPONSE_BUSY)` and post
it when `IsResponseExpected(pCommand)` holds, discarding the incoming bytes;
otherwise set `CommandPending` and
`memcpy(CommandBuffer, pCommand, pCommand->Length)` — again with no capacity
check. `IsResponseExpected` is a virtual (the base returns `false`), passed
here as a predicate. -/
def OnCommandReceived (isResponseExpected : List Byte → Bool)
    (s : ListenerState) (pCommand : List Byte) : ListenerState :=
  if s.CommandPending then
    let responseBusy := encodeCommandResponse
      (CommandResponse.make CMD_RESPONSE_BUSY 0)
    if isResponseExpected pCommand then PostResponse s (some responseBusy)
    else s
  else
    let s' := { s with CommandPending := true }
    let copied := memcpy s'.CommandBuffer pCommand (pCommand.getD 0 0)
    { s' with CommandBuffer := copied }

/-- `SendResponse(twi)` (CommandListener.cpp): constructs a fresh
`CommandResponse(CMD_RESPONSE_UNKNOWN)` on the stack and writes its
`sizeof(response)` bytes to the bus, touching no listener state. The bus is the
list of bytes written so far. -/
def SendResponse (s : ListenerState) (twiOut : List Byte) :
    ListenerState × List Byte :=
  let response := CommandResponse.make CMD_RESPONSE_UNKNOWN 0
  (s, twiOut ++ encodeCommandResponse response)

/-! ## Deferred response registry (commented-out in the source)

`CommandListener.h` declares `DEFERRED_RESPONSE_LIST_SIZE = 5`, `ResponseItem`
and `_deferredResponseList`, and CommandListener.cpp carries
`PostDeferredResponse`, all as commented-out code; the embedding transcribes
that text. Note the loop reads `auto responseItem = _deferredResponseList[i];`
— a by-value copy of the slot, so the assignments to `responseItem` mutate the
local copy, never the array. -/

def DEFERRED_RESPONSE_LIST_SIZE : Nat := 5

structure ResponseItem where
  InUse : Bool
  pResponse : Option (List Byte)
  deriving Repr, DecidableEq

/-- `ResponseItem() : InUse(false), pResponse(NULL)` -/
def ResponseItem.init : ResponseItem := { InUse := false, pResponse := none }

/-- The linear scan inside `PostDeferredResponse`, cell by cell. At the first
slot with `!responseItem.InUse` the C++ sets `InUse` and `pResponse` on its
stack copy and breaks — the array cell itself keeps its old value, so the scan
returns every cell unchanged. -/
def postDeferredScan (raw : List Byte) :
    List ResponseItem → List ResponseItem
  | [] => []
  | item :: rest =>
      if !item.InUse then
        let responseItem := { item with InUse := true, pResponse := some raw }
        item :: rest
      else
        item :: postDeferredScan raw rest

/-- `PostDeferredResponse(pResponse)` (commented out in CommandListener.cpp):
NULL is a no-op; otherwise scan `_deferredResponseList` for a free slot. -/
def PostDeferredResponse (list : List ResponseItem)
    (pResponse : Option (List Byte)) : List ResponseItem :=
  match pResponse with
  | none => list
  | some raw => postDeferredScan raw list

/-! ## I2C codec primitives (RTL_I2C.h)

The `TwoWire` receive side is modelled as the list of bytes currently
available; the transmit side as the list of bytes written so far. -/

/-- The loop of the raw `I2C_Read(twi, pDest, sizeDest)`:
`while (bytesRead < sizeDest && twi.available()) pDest[bytesRead++] = twi.read();`
Returns the bytes stored into `pDest`; its length is the returned
`bytesRead`. -/
def i2cReadLoop : Nat → List Byte → List Byte
  | 0, _ => []
  | _ + 1, [] => []
  | n + 1, b :: rest => b :: i2cReadLoop n rest

/-- Raw `I2C_Read(twi, pDest, sizeDest)` : bytes read and the bytes left in the
wire's receive queue. -/
def I2C_Read (twiAvail : List Byte) (sizeDest : Nat) : List Byte × List Byte :=
  ((i2cReadLoop sizeDest twiAvail), twiAvail.drop (i2cReadLoop sizeDest twiAvail).length)

/-- Typed `I2C_Read(twi, value)` : `I2C_Read(twi, (uint8_t*)&value, sizeof value)`.
`sizeT` stands for `sizeof(T)`; returns the number of bytes actually read. -/
def I2C_ReadTyped (twiAvail : List Byte) (sizeT : Nat) : Nat :=
  (I2C_Read twiAvail sizeT).1.length

/-- Typed `I2C_Write(twi, value)` : `twi.write((uint8_t*)&value, sizeof(value));
return sizeof(value);`. The value is its `sizeof(T)` raw bytes; returns the new
transmit queue and the reported count. -/
def I2C_Write (twiOut : List Byte) (valueBytes : List Byte) :
    List Byte × Nat :=
  (twiOut ++ valueBytes, valueBytes.length)

/-! ## Helper lemmas -/

theorem strncpyChars_length_le (src : List Byte) :
    ∀ n, (strncpyChars n src).length ≤ n := by
  induction src with
  | nil => intro n; cases n <;> simp [strncpyChars]
  | cons c rest ih =>
      intro n
      cases n with
      | zero => simp [strncpyChars]
      | succ m =>
          simp only [strncpyChars]
          by_cases h : c % 256 = 0
          · simp [h]
          · simp only [h, if_false, List.length_cons]
            exact Nat.succ_le_succ (ih m)

theorem cstrBuffer_length (cap : Nat) (src : List Byte) :
    (cstrBuffer cap src).length = cap := by
  have hle : (strncpyChars (cap - 1) src).length ≤ cap :=
    le_trans (strncpyChars_length_le src (cap - 1)) (Nat.sub_le cap 1)
  simp only [cstrBuffer, List.length_append, List.length_replicate]
  omega

theorem i2cReadLoop_length (avail : List Byte) :
    ∀ n, (i2cReadLoop n avail).length = min n avail.length := by
  induction avail with
  | nil => intro n; cases n <;> simp [i2cReadLoop]
  | cons b rest ih =>
      intro n
      cases n with
      | zero => simp [i2cReadLoop]
      | succ m => simp [i2cReadLoop, ih m, Nat.succ_min_succ]

/-! ## Sample states used by the witnesses -/

def zero32 : List Byte := List.replicate 32 0

def sampleListener : ListenerState := mkListener 9 zero32 zero32

def samplePendingListener : ListenerState :=
  { mkListener 9 zero32 zero32 with CommandPending := true }

/-! ## Claim theorems -/

/-- C3: every command and response variant's constructor stamps `Length` with
the concrete variant's `sizeof`, and re-reading the constructed frame from its
raw bytes reproduces the same field values. -/
theorem command_frames_roundtrip :
    (∀ c, (CommandMessage.make c).Length = sizeofCommandMessage ∧
      decodeCommandMessage (encodeCommandMessage (CommandMessage.make c)) =
        some (CommandMessage.make c)) ∧
    (∀ a cl, (CommandExecute.make a cl).Length = sizeofCommandExecute ∧
      decodeCommandExecute (encodeCommandExecute (CommandExecute.make a cl)) =
        some (CommandExecute.make a cl)) ∧
    (∀ e, (CommandEcho.make e).Length = sizeofCommandEcho ∧
      decodeCommandEcho (encodeCommandEcho (CommandEcho.make e)) =
        some (CommandEcho.make e)) ∧
    (∀ r, (CommandQueryResponseReady.make r).Length =
        sizeofCommandQueryResponseReady ∧
      decodeCommandQueryResponseReady (encodeCommandQueryResponseReady
        (CommandQueryResponseReady.make r)) =
        some (CommandQueryResponseReady.make r)) ∧
    (∀ rc ri, (CommandResponse.make rc ri).Length = sizeofCommandResponse ∧
      decodeCommandResponse (encodeCommandResponse
        (CommandResponse.make rc ri)) = some (CommandResponse.make rc ri)) ∧
    (∀ i, (CommandResponseQueryID.make i).Length =
        sizeofCommandResponseQueryID ∧
      decodeCommandResponseQueryID (encodeCommandResponseQueryID
        (CommandResponseQueryID.make i)) =
        some (CommandResponseQueryID.make i)) ∧
    (∀ r, (CommandResponseDeferred.make r).Length =
        sizeofCommandResponseDeferred ∧
      decodeCommandResponseDeferred (encodeCommandResponseDeferred
        (CommandResponseDeferred.make r)) =
        some (CommandResponseDeferred.make r)) := by
  refine ⟨fun c => ⟨rfl, rfl⟩, fun a cl => ⟨rfl, ?_⟩, fun e => ⟨rfl, ?_⟩,
    fun r => ⟨rfl, rfl⟩, fun rc ri => ⟨rfl, rfl⟩, fun i => ⟨rfl, rfl⟩,
    fun r => ⟨rfl, rfl⟩⟩
  · have h27 : (cstrBuffer 27 cl).length = 27 :=
      cstrBuffer_length 27 cl
    simp [decodeCommandExecute, encodeCommandExecute, CommandExecute.make,
      h27, List.take_of_length_le (le_of_eq h27)]
  · have h27 : (cstrBuffer 27 e).length = 27 :=
      cstrBuffer_length 27 e
    simp [decodeCommandEcho, encodeCommandEcho, CommandEcho.make,
      h27, List.take_of_length_le (le_of_eq h27)]

/-- C10: `SendResponse` writes a fresh 3-byte `CommandResponse` with code
`CMD_RESPONSE_UNKNOWN` (0x05) and ID 0 to the bus, whatever the listener's
state, and leaves `ResponsePending` and `ResponseBuffer` (indeed the whole
state) untouched. -/
theorem sendResponse_always_unknown (s : ListenerState) (twiOut : List Byte) :
    (SendResponse s twiOut).1 = s ∧
    (SendResponse s twiOut).1.ResponsePending = s.ResponsePending ∧
    (SendResponse s twiOut).1.ResponseBuffer = s.ResponseBuffer ∧
    (SendResponse s twiOut).2 = twiOut ++ [3, 0x05, 0] ∧
    encodeCommandResponse (CommandResponse.make CMD_RESPONSE_UNKNOWN 0) =
      [3, 0x05, 0] :=
  ⟨rfl, rfl, rfl, rfl, rfl⟩

/-- C8: a command whose code byte is anything other than `CMD_QUERY_ID` falls
through `DefaultCommandHandler`'s switch: no response is posted, so
`ResponsePending` and `ResponseBuffer` are exactly as before (the whole state
is unchanged). -/
theorem defaultHandler_unrecognized_silent (s : ListenerState)
    (cmd : List Byte) (h : cmd.getD 1 0 ≠ CMD_QUERY_ID) :
    (DefaultCommandHandler s cmd).ResponsePending = s.ResponsePending ∧
    (DefaultCommandHandler s cmd).ResponseBuffer = s.ResponseBuffer ∧
    DefaultCommandHandler s cmd = s := by
  unfold DefaultCommandHandler
  rw [if_neg h]
  exact ⟨rfl, rfl, rfl⟩

/-- C8 witness: the echo command code (0x06) at a concrete listener state. -/
theorem defaultHandler_unrecognized_silent_witness :
    (DefaultCommandHandler sampleListener [2, 6]).ResponsePending =
      sampleListener.ResponsePending ∧
    (DefaultCommandHandler sampleListener [2, 6]).ResponseBuffer =
      sampleListener.ResponseBuffer :=
  ⟨(defaultHandler_unrecognized_silent sampleListener [2, 6] (by decide)).1,
   (defaultHandler_unrecognized_silent sampleListener [2, 6] (by decide)).2.1⟩

/-- C6: with a command pending, `Poll` hands exactly the command buffer to the
handler exactly once and clears the pending flag (the rest of the state being
whatever the handler made of it); with no command pending, no handler runs and
the state is untouched. -/
theorem poll_dispatches_once (onCommand : Handler) (s : ListenerState) :
    (s.CommandPending = true →
      (Poll onCommand s).2 = [s.CommandBuffer] ∧
      (Poll onCommand s).1.CommandPending = false ∧
      (Poll onCommand s).1 =
        { onCommand s s.CommandBuffer with CommandPending := false }) ∧
    (s.CommandPending = false →
      (Poll onCommand s).2 = [] ∧ (Poll onCommand s).1 = s) := by
  constructor <;> intro h <;> simp [Poll, h]

/-- C6 witness: the identity handler on a pending and on an idle listener. -/
theorem poll_dispatches_once_witness :
    ((Poll (fun s _ => s) samplePendingListener).2 =
        [samplePendingListener.CommandBuffer] ∧
      (Poll (fun s _ => s) samplePendingListener).1.CommandPending = false) ∧
    ((Poll (fun s _ => s) sampleListener).2 = [] ∧
      (Poll (fun s _ => s) sampleListener).1 = sampleListener) :=
  ⟨⟨((poll_dispatches_once (fun s _ => s) samplePendingListener).1 rfl).1,
    ((poll_dispatches_once (fun s _ => s) samplePendingListener).1 rfl).2.1⟩,
   (poll_dispatches_once (fun s _ => s) sampleListener).2 rfl⟩

/-- C2: `GetResponse` serves the pending response buffer and clears the flag
when `ResponsePending` holds, serves the static NOT_READY frame
(`[3, 0x02, 0]`) otherwise, serves whatever `PostResponse` most recently
stored, and a second `GetResponse` with no `PostResponse` in between always
serves NOT_READY. `raw` is any well-formed response frame (its declared
`Length` byte equals its byte count). -/
theorem getResponse_pending_protocol (s : ListenerState) (raw : List Byte)
    (hlen : raw.getD 0 0 = raw.length) :
    (s.ResponsePending = true →
      (GetResponse s).1 = s.ResponseBuffer ∧
      (GetResponse s).2.ResponsePending = false) ∧
    (s.ResponsePending = false →
      (GetResponse s).1 = responseNotReady ∧ (GetResponse s).2 = s) ∧
    responseNotReady = [3, 0x02, 0] ∧
    (GetResponse (PostResponse s (some raw))).1.take raw.length = raw ∧
    (GetResponse (GetResponse s).2).1 = responseNotReady := by
  refine ⟨fun h => ?_, fun h => ?_, rfl, ?_, ?_⟩
  · simp [GetResponse, h]
  · simp [GetResponse, h]
  · have hlen' : raw[0]?.getD 0 = raw.length := by simpa [List.getD] using hlen
    simp [PostResponse, GetResponse, memcpy, hlen', List.take_append]
  · cases h : s.ResponsePending <;> simp [GetResponse, h]

/-- C2 witness: a posted 3-byte ERROR frame is served back, and back-to-back
retrievals with no post in between end in NOT_READY. -/
theorem getResponse_pending_protocol_witness :
    ([3, 4, 0].getD 0 0 = [3, 4, 0].length) ∧
    (GetResponse (PostResponse sampleListener (some [3, 4, 0]))).1.take 3 =
      [3, 4, 0] ∧
    (GetResponse (GetResponse sampleListener).2).1 = responseNotReady :=
  ⟨by decide,
   (getResponse_pending_protocol sampleListener [3, 4, 0] (by decide)).2.2.2.1,
   (getResponse_pending_protocol sampleListener [3, 4, 0] (by decide)).2.2.2.2⟩

/-- C4: a listener with device ID 7, holding a captured `CMD_QUERY_ID` command
with `CommandPending` set, after one `Poll` serves via `GetResponse` a
`CommandResponseQueryID` frame with code OK, response ID 0 and ID 7. -/
theorem queryID_scenario (s : ListenerState)
    (hid : s.myDeviceID = 7) (hp : s.CommandPending = true)
    (hcmd : s.CommandBuffer.getD 1 0 = CMD_QUERY_ID) :
    decodeCommandResponseQueryID
        (GetResponse (Poll DefaultCommandHandler s).1).1 =
      some { Length := 4, ResponseCode := CMD_RESPONSE_OK, ResponseID := 0,
             ID := 7 } := by
  unfold Poll DefaultCommandHandler
  rw [if_pos hp, if_pos hcmd, hid]
  simp [PostResponse, GetResponse, memcpy, encodeCommandResponseQueryID,
    CommandResponseQueryID.make, decodeCommandResponseQueryID,
    sizeofCommandResponseQueryID, CMD_RESPONSE_OK]

/-- C4 witness: the concrete device-7 listener with the query-ID frame
captured. -/
theorem queryID_scenario_witness :
    decodeCommandResponseQueryID
        (GetResponse (Poll DefaultCommandHandler
          { mkListener 7 (memcpy zero32 [2, 1] 2) zero32 with
              CommandPending := true }).1).1 =
      some { Length := 4, ResponseCode := CMD_RESPONSE_OK, ResponseID := 0,
             ID := 7 } :=
  queryID_scenario
    { mkListener 7 (memcpy zero32 [2, 1] 2) zero32 with CommandPending := true }
    (by decide) (by decide) (by decide)

/-- C5: receiving a command while one is pending leaves the pending flag and
the command buffer untouched; when the incoming command expects a response a
BUSY frame (`[3, 0x03, 0]`) is posted and immediately served by `GetResponse`,
and when it does not, the state is entirely unchanged (the bytes are
discarded). -/
theorem receive_while_pending_rejected (isResponseExpected : List Byte → Bool)
    (s : ListenerState) (cmd : List Byte) (hp : s.CommandPending = true) :
    (OnCommandReceived isResponseExpected s cmd).CommandPending = true ∧
    (OnCommandReceived isResponseExpected s cmd).CommandBuffer =
      s.CommandBuffer ∧
    (isResponseExpected cmd = true →
      (OnCommandReceived isResponseExpected s cmd).ResponsePending = true ∧
      (GetResponse (OnCommandReceived isResponseExpected s cmd)).1.take 3 =
        [3, CMD_RESPONSE_BUSY, 0]) ∧
    (isResponseExpected cmd = false →
      OnCommandReceived isResponseExpected s cmd = s) := by
  unfold OnCommandReceived
  rw [if_pos hp]
  by_cases hexp : isResponseExpected cmd = true
  · rw [if_pos hexp]
    refine ⟨hp, rfl, fun _ => ⟨rfl, ?_⟩, fun hfalse => by rw [hexp] at hfalse; cases hfalse⟩
    simp [PostResponse, GetResponse, memcpy, encodeCommandResponse,
      CommandResponse.make, sizeofCommandResponse, CMD_RESPONSE_BUSY,
      List.take_append]
  · rw [if_neg hexp]
    exact ⟨hp, rfl, fun htrue => absurd htrue hexp, fun _ => rfl⟩

/-- C5 witness: a pending listener rejecting a response-expecting echo command
with an immediately retrievable BUSY frame. -/
theorem receive_while_pending_rejected_witness :
    (OnCommandReceived (fun _ => true) samplePendingListener
        [2, 6]).CommandPending = true ∧
    (GetResponse (OnCommandReceived (fun _ => true) samplePendingListener
        [2, 6])).1.take 3 = [3, CMD_RESPONSE_BUSY, 0] :=
  ⟨(receive_while_pending_rejected (fun _ => true) samplePendingListener
      [2, 6] rfl).1,
   ((receive_while_pending_rejected (fun _ => true) samplePendingListener
      [2, 6] rfl).2.2.1 rfl).2⟩

/-! ## C1 / C7 / C9 concrete inputs -/

/-- A frame whose declared `Length` byte (40) exceeds the 32-byte buffer
capacity; its 39 payload bytes carry the marker 0xAA. -/
def oversizedFrame : List Byte := 40 :: List.replicate 39 0xAA

/-- A just-constructed listener (`Begin` has run, buffers hold 32 zero
bytes). -/
def freshListener : ListenerState := mkListener 0 zero32 zero32

/-- C1: the code performs no capacity check against the declared `Length`
field. A frame declaring 40 bytes is not rejected: the receive path accepts it
(sets `CommandPending`) and its `memcpy` drives `CommandBuffer` to 40 cells —
8 bytes past the 32-byte array — and `PostResponse` likewise copies 40 bytes
into `ResponseBuffer`. -/
theorem oversized_frame_overruns_buffers :
    (OnCommandReceived (fun _ => false) freshListener
        oversizedFrame).CommandPending = true ∧
    ((OnCommandReceived (fun _ => false) freshListener
        oversizedFrame).CommandBuffer).length = 40 ∧
    ((PostResponse freshListener (some oversizedFrame)).ResponseBuffer).length
      = 40 ∧
    oversizedFrame.getD 0 0 = 40 ∧
    BUFFER_CAPACITY = 32 := by
  refine ⟨rfl, ?_, ?_, rfl, rfl⟩ <;> decide

/-- The registry after `Begin`: all five slots free. -/
def emptyRegistry : List ResponseItem :=
  List.replicate DEFERRED_RESPONSE_LIST_SIZE ResponseItem.init

/-- Five successive `PostDeferredResponse` registrations of distinct deferred
response frames. -/
def registryAfterFive : List ResponseItem :=
  List.foldl (fun reg r => PostDeferredResponse reg (some r)) emptyRegistry
    [[3, 1, 1], [3, 1, 2], [3, 1, 3], [3, 1, 4], [3, 1, 5]]

/-- C7: registering does not mark any entry in-use. Because the loop copies
each slot by value, five registrations into the empty five-slot registry leave
it exactly as it was: zero slots in use, none holding a response. -/
theorem deferred_registration_marks_nothing :
    registryAfterFive = emptyRegistry ∧
    (registryAfterFive.filter (fun item => item.InUse)).length = 0 ∧
    DEFERRED_RESPONSE_LIST_SIZE = 5 := by
  refine ⟨?_, ?_, rfl⟩ <;> decide

/-- C9 counterexample: the typed `I2C_Read` does not always move `sizeof(T)`
bytes — with `sizeof(T) = 3` and a single byte available on the wire it reads
only 1 byte. -/
theorem i2cReadTyped_short_read :
    I2C_ReadTyped [0xAB] 3 = 1 ∧ I2C_ReadTyped [0xAB] 3 ≠ 3 := by
  refine ⟨?_, ?_⟩ <;> decide

/-- C9 (amended): `I2C_Write` writes exactly the value's `sizeof(T)` bytes to
the wire and returns that count; the typed `I2C_Read` reads
`min sizeof(T) available` bytes, which equals `sizeof(T)` exactly when at least
`sizeof(T)` bytes are available. -/
theorem i2c_typed_moves_sizeof_bytes (twiOut valueBytes twiAvail : List Byte)
    (sizeT : Nat) :
    (I2C_Write twiOut valueBytes).2 = valueBytes.length ∧
    (I2C_Write twiOut valueBytes).1 = twiOut ++ valueBytes ∧
    I2C_ReadTyped twiAvail sizeT = min sizeT twiAvail.length ∧
    (sizeT ≤ twiAvail.length → I2C_ReadTyped twiAvail sizeT = sizeT) := by
  refine ⟨rfl, rfl, ?_, fun h => ?_⟩
  · simp [I2C_ReadTyped, I2C_Read, i2cReadLoop_length]
  · simp [I2C_ReadTyped, I2C_Read, i2cReadLoop_length, Nat.min_eq_left h]

/-- C9 witness: a 3-byte value against a wire holding 4 available bytes. -/
theorem i2c_typed_moves_sizeof_bytes_witness :
    (I2C_Write [] [1, 2, 3]).2 = 3 ∧ I2C_ReadTyped [9, 9, 9, 9] 3 = 3 :=
  ⟨(i2c_typed_moves_sizeof_bytes [] [1, 2, 3] [9, 9, 9, 9] 3).1,
   (i2c_typed_moves_sizeof_bytes [] [1, 2, 3] [9, 9, 9, 9] 3).2.2.2
     (by decide)⟩
